import Mathlib

/-!
Verification of the `libc_alloc` allocator adapter (`src/lib.rs`).

The adapter is embedded shallowly: memory is a total map from addresses to
byte values, the host C primitives (`posix_memalign`, `realloc`, `free` on
the unix family; `_aligned_malloc`, `_aligned_free`, `_aligned_realloc` on
the windows family) are opaque oracles supplied as structures of response
functions, and every adapter operation returns, besides its result, the
trace of host-primitive calls and raw memory writes it performed.  A null
pointer is the address 0.
-/

namespace LibcAlloc

/-- Addresses / raw pointers; the null sentinel is `0`. -/
abbrev Ptr := Nat

/-- Byte-addressed memory: each address holds a byte value. -/
abbrev Mem := Nat → Nat

/-- `core::alloc::Layout`: a size and a (power-of-two) alignment. -/
structure Layout where
  size : Nat
  align : Nat
deriving DecidableEq

/-- Compile-time target constants: `MIN_ALIGN` (the minimum alignment the
architecture's default allocator guarantees, 4, 8 or 16) and the byte width
of `usize` (`core::mem::size_of::<usize>()`). -/
structure Arch where
  minAlign : Nat
  usizeBytes : Nat
deriving DecidableEq

/-- One observable action of the adapter: a call to a host primitive, or a
raw memory write performed by the adapter itself. -/
inductive Event where
  | posixMemalign (align size : Nat)
  | hostRealloc (p newSize : Nat)
  | hostFree (p : Nat)
  | alignedMalloc (size align : Nat)
  | alignedFree (p : Nat)
  | alignedRealloc (p newSize align : Nat)
  | writeBytes (dst val count : Nat)
  | copyBytes (src dst count : Nat)
deriving DecidableEq

/-- The unix-family host oracle: responses of `posix_memalign` (status code
and out-pointer, as functions of the requested alignment and size) and of
the in-place `realloc`. -/
structure HostA where
  memalignRet : Nat → Nat → Nat
  memalignPtr : Nat → Nat → Ptr
  reallocRes : Ptr → Nat → Ptr

/-- The windows-family host oracle: responses of `_aligned_malloc` (as a
function of size and alignment) and `_aligned_realloc`. -/
structure HostB where
  alignedMallocRes : Nat → Nat → Ptr
  alignedReallocRes : Ptr → Nat → Nat → Ptr

/-- `ptr::write_bytes(dst, val, count)`: fill `[dst, dst + count)` with
`val`, leaving all other addresses unchanged. -/
def writeBytesMem (m : Mem) (dst : Ptr) (val count : Nat) : Mem :=
  fun a => if dst ≤ a ∧ a < dst + count then val else m a

/-- `ptr::copy_nonoverlapping(src, dst, count)`: copy `count` bytes from
`src` to `dst` (semantics of the non-overlapping case). -/
def copyBytesMem (m : Mem) (src dst : Ptr) (count : Nat) : Mem :=
  fun a => if dst ≤ a ∧ a < dst + count then m (src + (a - dst)) else m a

/-- `GlobalAlloc::alloc` for the unix family (`src/lib.rs` lines 69-81):
ask `posix_memalign` for `layout.size` bytes at alignment
`max(layout.align, size_of::<usize>())`; return the out-pointer when the
status code is 0 and null otherwise. -/
def alloc (arch : Arch) (h : HostA) (layout : Layout) (m : Mem) :
    Ptr × Mem × List Event :=
  (if h.memalignRet (max layout.align arch.usizeBytes) layout.size = 0 then
      h.memalignPtr (max layout.align arch.usizeBytes) layout.size
    else 0,
   m,
   [Event.posixMemalign (max layout.align arch.usizeBytes) layout.size])

/-- `GlobalAlloc::alloc_zeroed` for the unix family (lines 84-92): call
`alloc`; if it returned non-null, zero the first `layout.size` bytes of the
block. -/
def alloc_zeroed (arch : Arch) (h : HostA) (layout : Layout) (m : Mem) :
    Ptr × Mem × List Event :=
  if (alloc arch h layout m).1 ≠ 0 then
    ((alloc arch h layout m).1,
     writeBytesMem (alloc arch h layout m).2.1 (alloc arch h layout m).1 0
       layout.size,
     (alloc arch h layout m).2.2 ++
       [Event.writeBytes (alloc arch h layout m).1 0 layout.size])
  else alloc arch h layout m

/-- `GlobalAlloc::dealloc` for the unix family (lines 95-97): forward the
pointer to `libc::free`, ignoring the layout. -/
def dealloc (h : HostA) (p : Ptr) (layout : Layout) (m : Mem) :
    Mem × List Event :=
  (m, [Event.hostFree p])

/-- `realloc_fallback` (lines 111-126): allocate a fresh block of
`new_size` bytes at the old alignment; if that succeeded, copy
`min(old_size, new_size)` bytes over, free the old block and return the
new pointer; otherwise return null with nothing else done. -/
def realloc_fallback (arch : Arch) (h : HostA) (p : Ptr) (old_layout : Layout)
    (new_size : Nat) (m : Mem) : Ptr × Mem × List Event :=
  let r := alloc arch h ⟨new_size, old_layout.align⟩ m
  if r.1 ≠ 0 then
    let sz := min old_layout.size new_size
    let m2 := copyBytesMem r.2.1 p r.1 sz
    let d := dealloc h p old_layout m2
    (r.1, d.1, r.2.2 ++ [Event.copyBytes p r.1 sz] ++ d.2)
  else r

/-- `GlobalAlloc::realloc` for the unix family (lines 100-107): use the
host's in-place `realloc` when the old alignment is at most `MIN_ALIGN`
and at most `new_size`; otherwise take the fallback path. -/
def realloc (arch : Arch) (h : HostA) (p : Ptr) (layout : Layout)
    (new_size : Nat) (m : Mem) : Ptr × Mem × List Event :=
  if layout.align ≤ arch.minAlign ∧ layout.align ≤ new_size then
    (h.reallocRes p new_size, m, [Event.hostRealloc p new_size])
  else realloc_fallback arch h p layout new_size m

namespace Win

/-- `GlobalAlloc::alloc` for the windows family (lines 131-133): delegate
to `_aligned_malloc(layout.size, layout.align)`. -/
def alloc (h : HostB) (layout : Layout) (m : Mem) : Ptr × Mem × List Event :=
  (h.alignedMallocRes layout.size layout.align, m,
   [Event.alignedMalloc layout.size layout.align])

/-- `GlobalAlloc::dealloc` for the windows family (lines 136-138): forward
to `_aligned_free`, ignoring the layout. -/
def dealloc (h : HostB) (p : Ptr) (layout : Layout) (m : Mem) :
    Mem × List Event :=
  (m, [Event.alignedFree p])

/-- `GlobalAlloc::alloc_zeroed` for the windows family (lines 141-149). -/
def alloc_zeroed (h : HostB) (layout : Layout) (m : Mem) :
    Ptr × Mem × List Event :=
  if (alloc h layout m).1 ≠ 0 then
    ((alloc h layout m).1,
     writeBytesMem (alloc h layout m).2.1 (alloc h layout m).1 0 layout.size,
     (alloc h layout m).2.2 ++
       [Event.writeBytes (alloc h layout m).1 0 layout.size])
  else alloc h layout m

/-- `GlobalAlloc::realloc` for the windows family (lines 152-154):
delegate to `_aligned_realloc(ptr, new_size, layout.align)`. -/
def realloc (h : HostB) (p : Ptr) (layout : Layout) (new_size : Nat)
    (m : Mem) : Ptr × Mem × List Event :=
  (h.alignedReallocRes p new_size layout.align, m,
   [Event.alignedRealloc p new_size layout.align])

end Win

/-- Recognizer for host in-place `realloc` calls in a trace. -/
def isReallocEvent : Event → Bool
  | Event.hostRealloc _ _ => true
  | _ => false

/-- Recognizer for host aligned-allocation calls in a trace. -/
def isMemalignEvent : Event → Bool
  | Event.posixMemalign _ _ => true
  | _ => false

/-- Recognizer for host `free` calls in a trace. -/
def isFreeEvent : Event → Bool
  | Event.hostFree _ => true
  | _ => false

/-- A resize outcome used the fast path exactly when its trace contains a
host in-place `realloc` call. -/
def usedFastPath (r : Ptr × Mem × List Event) : Bool :=
  r.2.2.any isReallocEvent

/-- A concrete x86_64-style target: `MIN_ALIGN = 16`, 8-byte `usize`. -/
def archX : Arch := ⟨16, 8⟩

/-- A concrete unix host whose aligned allocation always succeeds,
returning the address `2 * align`. -/
def hostOk : HostA :=
  { memalignRet := fun _ _ => 0
    memalignPtr := fun a _ => 2 * a
    reallocRes := fun p _ => p }

/-- A concrete unix host whose aligned allocation always fails with
status 1. -/
def hostFail : HostA :=
  { memalignRet := fun _ _ => 1
    memalignPtr := fun _ _ => 0
    reallocRes := fun p _ => p }

/-- A concrete windows host returning the fixed address 13. -/
def hostB13 : HostB := ⟨fun _ _ => 13, fun p _ _ => p⟩

/-- A concrete windows host returning the address `3 * align`. -/
def hostB3a : HostB := ⟨fun _ a => 3 * a, fun _ _ a => a⟩

/-- A concrete memory state. -/
def memC : Mem := fun a => a % 251

/-- `alloc` leaves memory untouched. -/
theorem alloc_mem (arch : Arch) (h : HostA) (l : Layout) (m : Mem) :
    (alloc arch h l m).2.1 = m := rfl

/-- `alloc` performs exactly one host aligned-allocation call. -/
theorem alloc_trace (arch : Arch) (h : HostA) (l : Layout) (m : Mem) :
    (alloc arch h l m).2.2 =
      [Event.posixMemalign (max l.align arch.usizeBytes) l.size] := rfl

/-- Which resize path runs is exactly the branch condition of `realloc`. -/
theorem usedFastPath_realloc_eq (arch : Arch) (h : HostA) (p : Ptr)
    (layout : Layout) (new_size : Nat) (m : Mem) :
    usedFastPath (realloc arch h p layout new_size m) =
      decide (layout.align ≤ arch.minAlign ∧ layout.align ≤ new_size) := by
  by_cases hc : layout.align ≤ arch.minAlign ∧ layout.align ≤ new_size
  · simp [realloc, hc, usedFastPath, isReallocEvent]
  · simp only [realloc, if_neg hc, realloc_fallback]
    split
    · simp [usedFastPath, isReallocEvent, alloc, dealloc, hc]
    · simp [usedFastPath, isReallocEvent, alloc, hc]

/-- C3: on the unix family, resize uses the host in-place resize primitive
directly — one call to it and no aligned-allocation or free calls — if and
only if the old alignment is at most `MIN_ALIGN` and at most `new_size`;
in every other case it runs `realloc_fallback`. -/
theorem realloc_fast_path_iff (arch : Arch) (h : HostA) (p : Ptr)
    (layout : Layout) (new_size : Nat) (m : Mem) :
    ((layout.align ≤ arch.minAlign ∧ layout.align ≤ new_size) ↔
      (realloc arch h p layout new_size m).2.2 =
        [Event.hostRealloc p new_size]) ∧
    (¬ (layout.align ≤ arch.minAlign ∧ layout.align ≤ new_size) →
      realloc arch h p layout new_size m =
        realloc_fallback arch h p layout new_size m) := by
  constructor
  · constructor
    · intro hc; simp [realloc, hc]
    · intro ht
      have hfp := usedFastPath_realloc_eq arch h p layout new_size m
      unfold usedFastPath at hfp
      rw [ht] at hfp
      simpa [isReallocEvent] using hfp.symm
  · intro hc; simp [realloc, hc]

/-- Witness for C3: the concrete call of the spec's scenario
(`old_align = 8`, `new_size = 20`, `MIN_ALIGN = 16`) issues exactly one
host in-place resize call. -/
theorem realloc_fast_path_iff_witness :
    (realloc archX hostOk 4 ⟨10, 8⟩ 20 memC).2.2 =
      [Event.hostRealloc 4 20] :=
  (realloc_fast_path_iff archX hostOk 4 ⟨10, 8⟩ 20 memC).1.mp (by decide)

/-- C9: the path resize takes is a function of the old alignment,
`new_size` and the target's `MIN_ALIGN` alone — two calls agreeing on
those take the same path whatever their pointer, old size, host responses
or memory contents. -/
theorem realloc_path_depends_only_on_align_size (arch : Arch)
    (h1 h2 : HostA) (p1 p2 : Ptr) (s1 s2 al new_size : Nat) (m1 m2 : Mem) :
    usedFastPath (realloc arch h1 p1 ⟨s1, al⟩ new_size m1) =
      usedFastPath (realloc arch h2 p2 ⟨s2, al⟩ new_size m2) := by
  rw [usedFastPath_realloc_eq, usedFastPath_realloc_eq]

/-- C7: on both families, deallocate forwards the pointer to the family's
host free primitive, changes no memory, reports no failure, and its result
is identical for any two layouts. -/
theorem dealloc_forwards_and_ignores_layout (hA : HostA) (hB : HostB)
    (p : Ptr) (l1 l2 : Layout) (m : Mem) :
    dealloc hA p l1 m = (m, [Event.hostFree p]) ∧
    dealloc hA p l1 m = dealloc hA p l2 m ∧
    Win.dealloc hB p l1 m = (m, [Event.alignedFree p]) ∧
    Win.dealloc hB p l1 m = Win.dealloc hB p l2 m :=
  ⟨rfl, rfl, rfl, rfl⟩

/-- C8: on the windows family, every resize is exactly one
`_aligned_realloc` call carrying the old layout's alignment, with no
branching and no allocate, copy or free actions. -/
theorem win_realloc_single_combined_call (h : HostB) (p : Ptr)
    (layout : Layout) (new_size : Nat) (m : Mem) :
    Win.realloc h p layout new_size m =
      (h.alignedReallocRes p new_size layout.align, m,
       [Event.alignedRealloc p new_size layout.align]) :=
  rfl

/-- C1: on the fallback resize path, if the new allocation fails (returns
the null sentinel) then resize returns null, the host free primitive is
never called, and every memory address — in particular every byte of the
original block — is unchanged. -/
theorem realloc_fallback_failure_preserves_old (arch : Arch) (h : HostA)
    (p : Ptr) (layout : Layout) (new_size : Nat) (m : Mem) (a : Nat)
    (hpath : ¬ (layout.align ≤ arch.minAlign ∧ layout.align ≤ new_size))
    (hfail : (alloc arch h ⟨new_size, layout.align⟩ m).1 = 0) :
    (realloc arch h p layout new_size m).1 = 0 ∧
    (realloc arch h p layout new_size m).2.1 a = m a ∧
    Event.hostFree p ∉ (realloc arch h p layout new_size m).2.2 := by
  have hre : realloc arch h p layout new_size m =
      alloc arch h ⟨new_size, layout.align⟩ m := by
    simp [realloc, hpath, realloc_fallback, hfail]
  rw [hre]
  exact ⟨hfail, rfl, by simp [alloc]⟩

/-- Witness for C1: a concrete fallback-path resize against a host whose
allocation fails returns null, frees nothing, and keeps memory intact. -/
theorem realloc_fallback_failure_preserves_old_witness :
    (realloc archX hostFail 4 ⟨10, 32⟩ 20 memC).1 = 0 ∧
    (realloc archX hostFail 4 ⟨10, 32⟩ 20 memC).2.1 7 = memC 7 ∧
    Event.hostFree 4 ∉ (realloc archX hostFail 4 ⟨10, 32⟩ 20 memC).2.2 :=
  realloc_fallback_failure_preserves_old archX hostFail 4 ⟨10, 32⟩ 20 memC 7
    (by decide) (by decide)

/-- C2: on the fallback resize path with a successful new allocation, the
adapter performs exactly allocate, copy of `min(old_size, new_size)` bytes
and free of the old block, in that order, returns the new handle, and the
copied prefix of the new block equals the old block's contents (the two
blocks being disjoint, as `copy_nonoverlapping` requires). -/
theorem realloc_fallback_success_steps (arch : Arch) (h : HostA) (p : Ptr)
    (layout : Layout) (new_size : Nat) (m : Mem) (i : Nat)
    (hpath : ¬ (layout.align ≤ arch.minAlign ∧ layout.align ≤ new_size))
    (hok : (alloc arch h ⟨new_size, layout.align⟩ m).1 ≠ 0)
    (hi : i < min layout.size new_size)
    (hdisj : p + min layout.size new_size ≤
        (alloc arch h ⟨new_size, layout.align⟩ m).1 ∨
      (alloc arch h ⟨new_size, layout.align⟩ m).1 +
          min layout.size new_size ≤ p) :
    (realloc arch h p layout new_size m).1 =
      (alloc arch h ⟨new_size, layout.align⟩ m).1 ∧
    (realloc arch h p layout new_size m).2.2 =
      [Event.posixMemalign (max layout.align arch.usizeBytes) new_size,
       Event.copyBytes p (alloc arch h ⟨new_size, layout.align⟩ m).1
         (min layout.size new_size),
       Event.hostFree p] ∧
    (realloc arch h p layout new_size m).2.1
        ((alloc arch h ⟨new_size, layout.align⟩ m).1 + i) = m (p + i) := by
  have hre : realloc arch h p layout new_size m =
      ((alloc arch h ⟨new_size, layout.align⟩ m).1,
       copyBytesMem m p (alloc arch h ⟨new_size, layout.align⟩ m).1
         (min layout.size new_size),
       [Event.posixMemalign (max layout.align arch.usizeBytes) new_size,
        Event.copyBytes p (alloc arch h ⟨new_size, layout.align⟩ m).1
          (min layout.size new_size),
        Event.hostFree p]) := by
    simp [realloc, hpath, realloc_fallback, hok, dealloc, alloc_mem,
      alloc_trace]
  rw [hre]
  refine ⟨rfl, rfl, ?_⟩
  have hcond : (alloc arch h ⟨new_size, layout.align⟩ m).1 ≤
      (alloc arch h ⟨new_size, layout.align⟩ m).1 + i ∧
      (alloc arch h ⟨new_size, layout.align⟩ m).1 + i <
        (alloc arch h ⟨new_size, layout.align⟩ m).1 +
          min layout.size new_size :=
    ⟨Nat.le_add_right _ _, Nat.add_lt_add_left hi _⟩
  simp [copyBytesMem, hcond]

/-- Witness for C2: a concrete fallback resize (old block at 4 with 10
live bytes, new 32-aligned block at 64 of 20 bytes) shows the exact
allocate-copy-free trace and the copied byte. -/
theorem realloc_fallback_success_steps_witness :
    (realloc archX hostOk 4 ⟨10, 32⟩ 20 memC).1 = 64 ∧
    (realloc archX hostOk 4 ⟨10, 32⟩ 20 memC).2.2 =
      [Event.posixMemalign 32 20, Event.copyBytes 4 64 10,
       Event.hostFree 4] ∧
    (realloc archX hostOk 4 ⟨10, 32⟩ 20 memC).2.1 67 = memC 7 :=
  realloc_fallback_success_steps archX hostOk 4 ⟨10, 32⟩ 20 memC 3
    (by decide) (by decide) (by decide) (Or.inl (by decide))

/-- C4 is false as stated: on the windows family the adapter does not ask
the host for alignment `max(align, usize-width)`.  With `align = 1` it
requests alignment 1 from `_aligned_malloc`, and a host honoring that
request (returning 13, a multiple of 1) yields a successful result that
is not a multiple of `max 1 8 = 8`. -/
theorem win_alloc_not_max_aligned :
    (Win.alloc hostB13 ⟨10, 1⟩ memC).2.2 = [Event.alignedMalloc 10 1] ∧
    (1 : Nat) ≠ max 1 8 ∧
    hostB13.alignedMallocRes 10 1 % 1 = 0 ∧
    (Win.alloc hostB13 ⟨10, 1⟩ memC).1 ≠ 0 ∧
    (Win.alloc hostB13 ⟨10, 1⟩ memC).1 % max 1 8 ≠ 0 := by
  decide

/-- C4 (amended): on the unix family, allocate requests alignment
`max(layout.align, usize-width)` from `posix_memalign` and a successful
result from an alignment-honoring host is a multiple of that; on the
windows family, allocate requests exactly `layout.align` from
`_aligned_malloc` and the result of an alignment-honoring host is a
multiple of `layout.align` only. -/
theorem alloc_requested_alignment (arch : Arch) (hA : HostA) (hB : HostB)
    (layout : Layout) (m : Mem)
    (hhA : hA.memalignPtr (max layout.align arch.usizeBytes) layout.size %
        (max layout.align arch.usizeBytes) = 0)
    (hhB : hB.alignedMallocRes layout.size layout.align % layout.align = 0) :
    (alloc arch hA layout m).2.2 =
      [Event.posixMemalign (max layout.align arch.usizeBytes) layout.size] ∧
    (alloc arch hA layout m).1 % (max layout.align arch.usizeBytes) = 0 ∧
    (Win.alloc hB layout m).2.2 =
      [Event.alignedMalloc layout.size layout.align] ∧
    (Win.alloc hB layout m).1 % layout.align = 0 := by
  refine ⟨rfl, ?_, rfl, hhB⟩
  by_cases hc : hA.memalignRet (max layout.align arch.usizeBytes)
      layout.size = 0
  · simpa [alloc, hc] using hhA
  · simp [alloc, hc]

/-- Witness for the amended C4 at a concrete layout and aligned hosts. -/
theorem alloc_requested_alignment_witness :
    (alloc archX hostOk ⟨10, 4⟩ memC).2.2 = [Event.posixMemalign 8 10] ∧
    (alloc archX hostOk ⟨10, 4⟩ memC).1 % 8 = 0 ∧
    (Win.alloc hostB3a ⟨10, 4⟩ memC).2.2 = [Event.alignedMalloc 10 4] ∧
    (Win.alloc hostB3a ⟨10, 4⟩ memC).1 % 4 = 0 :=
  alloc_requested_alignment archX hostOk hostB3a ⟨10, 4⟩ memC (by decide)
    (by decide)

/-- C5: allocate_zeroed performs allocate and, only when it succeeds,
zeroes every byte of `[ptr, ptr + size)` before returning the pointer; on
failure it returns null with memory untouched and with the failed host
allocation call as its only action. -/
theorem alloc_zeroed_correct (arch : Arch) (h : HostA) (layout : Layout)
    (m : Mem) (a : Nat) :
    (alloc_zeroed arch h layout m).1 = (alloc arch h layout m).1 ∧
    ((alloc arch h layout m).1 ≠ 0 →
      ((alloc arch h layout m).1 ≤ a ∧
          a < (alloc arch h layout m).1 + layout.size →
        (alloc_zeroed arch h layout m).2.1 a = 0) ∧
      (alloc_zeroed arch h layout m).2.2 =
        (alloc arch h layout m).2.2 ++
          [Event.writeBytes (alloc arch h layout m).1 0 layout.size]) ∧
    ((alloc arch h layout m).1 = 0 →
      (alloc_zeroed arch h layout m).2.1 a = m a ∧
      (alloc_zeroed arch h layout m).2.2 = (alloc arch h layout m).2.2) := by
  by_cases hp : (alloc arch h layout m).1 = 0
  · have he : alloc_zeroed arch h layout m = alloc arch h layout m := by
      simp [alloc_zeroed, hp]
    rw [he]
    exact ⟨rfl, fun hne => absurd hp hne, fun _ => ⟨rfl, rfl⟩⟩
  · have he : alloc_zeroed arch h layout m =
        ((alloc arch h layout m).1,
         writeBytesMem m (alloc arch h layout m).1 0 layout.size,
         (alloc arch h layout m).2.2 ++
           [Event.writeBytes (alloc arch h layout m).1 0 layout.size]) := by
      simp [alloc_zeroed, hp, alloc_mem]
    rw [he]
    refine ⟨rfl, fun _ => ⟨fun hin => ?_, rfl⟩, fun h0 => absurd h0 hp⟩
    simp [writeBytesMem, hin]

/-- Witness for C5: a concrete successful allocate_zeroed reads 0 inside
the block. -/
theorem alloc_zeroed_correct_witness :
    (alloc_zeroed archX hostOk ⟨10, 4⟩ memC).2.1 18 = 0 := by
  have hth := alloc_zeroed_correct archX hostOk ⟨10, 4⟩ memC 18
  exact (hth.2.1 (by decide)).1 (by decide)

/-- C6: allocate returns the null sentinel exactly when `posix_memalign`
reports a nonzero status (given the host contract that a zero status
comes with a non-null out-pointer); its entire behavior is that single
host call, with no retry, no alternate strategy and no memory effect. -/
theorem alloc_null_iff_host_failure (arch : Arch) (h : HostA)
    (layout : Layout) (m : Mem)
    (hh : h.memalignRet (max layout.align arch.usizeBytes) layout.size = 0 →
      h.memalignPtr (max layout.align arch.usizeBytes) layout.size ≠ 0) :
    ((alloc arch h layout m).1 = 0 ↔
      h.memalignRet (max layout.align arch.usizeBytes) layout.size ≠ 0) ∧
    (alloc arch h layout m).2.2 =
      [Event.posixMemalign (max layout.align arch.usizeBytes)
        layout.size] ∧
    (alloc arch h layout m).2.1 = m := by
  refine ⟨?_, rfl, rfl⟩
  by_cases hc : h.memalignRet (max layout.align arch.usizeBytes)
      layout.size = 0
  · simp [alloc, hc, hh hc]
  · simp [alloc, hc]

/-- Witness for C6: against a host that reports success, allocate returns
a non-null handle. -/
theorem alloc_null_iff_host_failure_witness :
    (alloc archX hostOk ⟨10, 4⟩ memC).1 ≠ 0 := by
  have hth := alloc_null_iff_host_failure archX hostOk ⟨10, 4⟩ memC
    (by decide)
  intro h0
  exact hth.1.mp h0 (by decide)

/-- C10: when allocate_zeroed succeeds, the adapter's writes zero exactly
the addresses in `[ptr, ptr + size)`; every other address reads
byte-for-byte as before the call. -/
theorem alloc_zeroed_frame (arch : Arch) (h : HostA) (layout : Layout)
    (m : Mem) (a : Nat)
    (hsucc : (alloc arch h layout m).1 ≠ 0) :
    (((alloc arch h layout m).1 ≤ a ∧
        a < (alloc arch h layout m).1 + layout.size) →
      (alloc_zeroed arch h layout m).2.1 a = 0) ∧
    (¬ ((alloc arch h layout m).1 ≤ a ∧
        a < (alloc arch h layout m).1 + layout.size) →
      (alloc_zeroed arch h layout m).2.1 a = m a) := by
  constructor <;> intro hin <;>
    simp [alloc_zeroed, hsucc, writeBytesMem, alloc_mem, hin]

/-- Witness for C10: a concrete successful allocate_zeroed leaves an
address outside the block unchanged. -/
theorem alloc_zeroed_frame_witness :
    (alloc_zeroed archX hostOk ⟨10, 4⟩ memC).2.1 30 = memC 30 := by
  have hth := alloc_zeroed_frame archX hostOk ⟨10, 4⟩ memC 30 (by decide)
  exact hth.2 (by decide)

end LibcAlloc
